import Mathlib

/-!
Verification of the IoT sensor temperature prediction pipeline
(`src/model/predictive_model.py`).

Shallow embedding conventions:

* A pandas `DataFrame` of raw readings is a `List Reading`, one entry per
  row, in table order.
* Timestamps are modelled as whole hours since an epoch (an `ℤ`); the
  pandas `.dt` calendar accessors are modelled as total integer functions
  of that hour count.  Their exact values are irrelevant to every property
  verified below — what matters is that they are total, per-row functions
  of the timestamp alone.
* Numeric cell values are `ℚ`; a nullable derived column entry is an
  `Option ℚ`, with `none` standing for pandas `NaN`.
* The cyclical `hour_sin`/`hour_cos`/`month_sin`/`month_cos` columns are
  fixed real-valued functions of the stored `hour`/`month` fields, so they
  are not duplicated numerically: equality of the stored rows implies
  equality of the cyclical columns.
* `rolling(24).std()` (sample standard deviation, `ddof = 1`, as pandas
  computes it) is represented by its square, the sample variance, which is
  rational.  The std column of the source is the square root of the stored
  value and therefore shares its nullness, and is non-negative exactly when
  the stored variance is non-negative.
-/

/-- One row of the raw input table (the columns of the train/test CSVs). -/
structure Reading where
  sensor_id : String
  timestamp : ℤ
  latitude : ℚ
  longitude : ℚ
  humidity : ℚ
  temperature : ℚ
deriving DecidableEq, Inhabited

/-- Model of `df['timestamp'].dt.hour` for hour-count timestamps. -/
def ts_hour (t : ℤ) : ℤ := t.emod 24

/-- Model of `df['timestamp'].dt.dayofweek`. -/
def ts_day_of_week (t : ℤ) : ℤ := (t.ediv 24).emod 7

/-- Model of `df['timestamp'].dt.day` (simplified 30-day months; the exact
value is irrelevant to every claim). -/
def ts_day_of_month (t : ℤ) : ℤ := (t.ediv 24).emod 30 + 1

/-- Model of `df['timestamp'].dt.month` (simplified calendar). -/
def ts_month (t : ℤ) : ℤ := ((t.ediv 24).ediv 30).emod 12 + 1

/-- Model of `df['timestamp'].dt.quarter`: determined by the month. -/
def ts_quarter (t : ℤ) : ℤ := (ts_month t - 1).ediv 3 + 1

/-- A reading augmented with the temporal feature columns added by
`FeatureEngineer.create_temporal_features`. -/
structure TempRow where
  base : Reading
  hour : ℤ
  day_of_week : ℤ
  month : ℤ
  day_of_month : ℤ
  quarter : ℤ
deriving DecidableEq, Inhabited

/-- `FeatureEngineer.create_temporal_features`: adds the five calendar
columns (each a pure function of the row's timestamp).  The four cyclical
columns `hour_sin`, `hour_cos`, `month_sin`, `month_cos` are fixed real
functions of `hour` and `month` and are carried implicitly by those two
fields. -/
def create_temporal_features (df : List Reading) : List TempRow :=
  df.map fun r =>
    { base := r
      hour := ts_hour r.timestamp
      day_of_week := ts_day_of_week r.timestamp
      month := ts_month r.timestamp
      day_of_month := ts_day_of_month r.timestamp
      quarter := ts_quarter r.timestamp }

/-- The one-sensor, timestamp-sorted series extracted at the top of
`create_lag_features`:
`df_sensor = df[df['sensor_id'] == sensor_id]` followed by
`df_sensor.sort_values('timestamp')`. -/
def sensorSeries (df : List TempRow) (sensor_id : String) : List TempRow :=
  List.insertionSort (fun a b => a.base.timestamp ≤ b.base.timestamp)
    (df.filter (fun r => r.base.sensor_id == sensor_id))

/-- pandas `Series.shift(k)`: `k` leading `NaN`s followed by the series
values, truncated to the original length. -/
def shift (xs : List ℚ) (k : ℕ) : List (Option ℚ) :=
  (List.replicate k none ++ xs.map some).take xs.length

/-- Entry of `shift xs k` at position `i` (`none` off range). -/
def shiftVal (xs : List ℚ) (k i : ℕ) : Option ℚ := (shift xs k).getD i none

/-- The trailing window pandas `rolling(window=w, min_periods=1)` sees at
position `i`: the last `min (i+1) w` elements of `xs.take (i+1)`. -/
def windowSlice (xs : List ℚ) (w i : ℕ) : List ℚ := (xs.take (i+1)).drop (i+1-w)

/-- Arithmetic mean of a list of rationals. -/
def meanQ (l : List ℚ) : ℚ := l.sum / l.length

/-- `rolling(window=w, min_periods=1).mean()` at position `i`. -/
def rollingMeanAt (xs : List ℚ) (w i : ℕ) : ℚ := meanQ (windowSlice xs w i)

/-- `rolling(window=w, min_periods=1).std()` at position `i`, represented
by the sample variance (`ddof = 1`): `NaN` (`none`) when fewer than two
observations are in the window, else `Σ (x - x̄)² / (n - 1)`. -/
def rollingVarAt (xs : List ℚ) (w i : ℕ) : Option ℚ :=
  if (windowSlice xs w i).length < 2 then none
  else some (((windowSlice xs w i).map
      (fun x => (x - meanQ (windowSlice xs w i))^2)).sum /
    (((windowSlice xs w i).length : ℚ) - 1))

/-- The default lag set of `create_lag_features` (`lags = None` branch). -/
def default_lags : List ℕ := [1, 2, 3, 6, 12, 24]

/-- A row of the per-sensor feature-engineered frame produced by
`create_lag_features`: the (temporal-augmented) base row plus the lag
columns (keyed by lag period), the four rolling means, and the two
24-period rolling standard deviations (stored as sample variances). -/
structure FeatRow where
  row : TempRow
  temp_lags : List (ℕ × Option ℚ)
  humidity_lags : List (ℕ × Option ℚ)
  temp_ma_6 : ℚ
  temp_ma_24 : ℚ
  humidity_ma_6 : ℚ
  humidity_ma_24 : ℚ
  temp_var_24 : Option ℚ
  humidity_var_24 : Option ℚ
deriving DecidableEq, Inhabited

/-- The `sensor_id` column of a feature-engineered row. -/
def FeatRow.sensor_id (fr : FeatRow) : String := fr.row.base.sensor_id

/-- `FeatureEngineer.create_lag_features df sensor_id lags`: filters to the
given sensor, sorts by timestamp, then adds the lag columns
(`temperature.shift(k)` / `humidity.shift(k)` for each `k` in `lags`), the
rolling means at windows 6 and 24, and the 24-period rolling standard
deviations (all with `min_periods=1`). -/
def create_lag_features (df : List TempRow) (sensor_id : String)
    (lags : List ℕ) : List FeatRow :=
  let s := sensorSeries df sensor_id
  let temps := s.map (fun r => r.base.temperature)
  let hums := s.map (fun r => r.base.humidity)
  (List.range s.length).map fun i =>
    { row := s.getD i default
      temp_lags := lags.map fun k => (k, shiftVal temps k i)
      humidity_lags := lags.map fun k => (k, shiftVal hums k i)
      temp_ma_6 := rollingMeanAt temps 6 i
      temp_ma_24 := rollingMeanAt temps 24 i
      humidity_ma_6 := rollingMeanAt hums 6 i
      humidity_ma_24 := rollingMeanAt hums 24 i
      temp_var_24 := rollingVarAt temps 24 i
      humidity_var_24 := rollingVarAt hums 24 i }

/-- Whether a feature-engineered row contains a null (`NaN`) in any column:
only the lag columns and the rolling-std columns are nullable (the raw
columns, the temporal columns and the `min_periods=1` rolling means are
total). -/
def rowHasNull (fr : FeatRow) : Bool :=
  fr.temp_lags.any (fun p => p.2.isNone) ||
  fr.humidity_lags.any (fun p => p.2.isNone) ||
  fr.temp_var_24.isNone || fr.humidity_var_24.isNone

/-- `DataFrame.dropna()`: keep only the rows with no null cell. -/
def dropna (l : List FeatRow) : List FeatRow :=
  l.filter (fun fr => !(rowHasNull fr))

/-- A log line emitted by `prepare_features` (the three `logger.info`
calls it contains). -/
inductive LogEntry where
  | engineeringFeatures : LogEntry
  | processingSensor : String → LogEntry
  | featuresCreated : ℕ → ℕ → LogEntry
deriving DecidableEq

/-- The pair of processed frames returned by `prepare_features`. -/
structure PrepResult where
  trainRows : List FeatRow
  testRows : List FeatRow
deriving DecidableEq

/-- First-occurrence deduplication, as `pandas.Series.unique` returns the
distinct values in order of first appearance (accumulator form). -/
def uniqueFirstAux {α : Type} [DecidableEq α] (seen : List α) :
    List α → List α
  | [] => []
  | x :: xs =>
    if x ∈ seen then uniqueFirstAux seen xs
    else x :: uniqueFirstAux (x :: seen) xs

/-- `Series.unique`: distinct values in order of first appearance. -/
def uniqueFirst {α : Type} [DecidableEq α] (l : List α) : List α :=
  uniqueFirstAux [] l

/-- `train_df['sensor_id'].unique()`. -/
def trainSensors (train_df : List Reading) : List String :=
  uniqueFirst (train_df.map (·.sensor_id))

/-- The per-sensor transform applied inside the `prepare_features` loop:
filter the table to one sensor, add temporal features, then add lag and
rolling features with the default lag set. -/
def process_sensor (df : List Reading) (sensor_id : String) : List FeatRow :=
  create_lag_features
    (create_temporal_features (df.filter (fun r => r.sensor_id == sensor_id)))
    sensor_id default_lags

/-- The train sensors that also occur in the test table, in train order
(the `if sensor_id in test_df['sensor_id'].unique()` guard). -/
def testSensorsOf (test_df : List Reading) (sids : List String) :
    List String :=
  sids.filter (fun s => decide (s ∈ test_df.map (·.sensor_id)))

/-- `SensorTemperaturePredictor.prepare_features`: for every distinct train
sensor, build its processed train frame (and its processed test frame when
the sensor also occurs in the test table), concatenate each side
(`pd.concat` raises `ValueError` on an empty list, modelled as `.error`),
then drop every row containing a null.  Also returns the emitted log. -/
def prepare_features (train_df test_df : List Reading) :
    List LogEntry × Except String PrepResult :=
  let sids := trainSensors train_df
  let processLog := sids.map (fun s => LogEntry.processingSensor (s.take 8))
  let trainFrames := sids.map (process_sensor train_df)
  let testFrames := (testSensorsOf test_df sids).map (process_sensor test_df)
  if trainFrames.isEmpty then
    (LogEntry.engineeringFeatures :: processLog,
      .error "No objects to concatenate")
  else if testFrames.isEmpty then
    (LogEntry.engineeringFeatures :: processLog,
      .error "No objects to concatenate")
  else
    let tr := dropna trainFrames.flatten
    let te := dropna testFrames.flatten
    (LogEntry.engineeringFeatures ::
        (processLog ++ [LogEntry.featuresCreated tr.length te.length]),
      .ok ⟨tr, te⟩)

/-- The processed train frame of a run (`[]` when the run raised). -/
def prepTrainRows (train_df test_df : List Reading) : List FeatRow :=
  match (prepare_features train_df test_df).2 with
  | .ok r => r.trainRows
  | .error _ => []

/-- The processed test frame of a run (`[]` when the run raised). -/
def prepTestRows (train_df test_df : List Reading) : List FeatRow :=
  match (prepare_features train_df test_df).2 with
  | .ok r => r.testRows
  | .error _ => []

/-- Whether the `prepare_features` run returned normally. -/
def prepOk (train_df test_df : List Reading) : Bool :=
  match (prepare_features train_df test_df).2 with
  | .ok _ => true
  | .error _ => false

/-- `SensorTemperaturePredictor.define_features`: the canonical ordered
feature-column list handed to the model. -/
def feature_columns : List String :=
  ["latitude", "longitude",
   "hour", "day_of_week", "month", "day_of_month", "quarter",
   "hour_sin", "hour_cos", "month_sin", "month_cos",
   "humidity",
   "temp_lag_1", "temp_lag_2", "temp_lag_3",
   "temp_lag_6", "temp_lag_12", "temp_lag_24",
   "humidity_lag_1", "humidity_lag_2", "humidity_lag_3",
   "humidity_lag_6", "humidity_lag_12", "humidity_lag_24",
   "temp_ma_6", "temp_ma_24",
   "humidity_ma_6", "humidity_ma_24",
   "temp_std_24", "humidity_std_24"]

/-- The parameters `StandardScaler.fit` computes: a per-feature mean and a
per-feature scale.  The scale is the square root of the per-feature
population variance (`ddof = 0`) with zero variances replaced by 1
(sklearn `_handle_zeros_in_scale`); it is represented here by its square
`varAdj`, which is rational. -/
structure ScalerParams where
  mean : List ℚ
  varAdj : List ℚ
deriving DecidableEq

/-- Column `j` of a row-major feature matrix. -/
def matrixColumn (X : List (List ℚ)) (j : ℕ) : List ℚ :=
  X.map (fun row => row.getD j 0)

/-- Per-column mean of a feature matrix. -/
def colMean (X : List (List ℚ)) (j : ℕ) : ℚ := meanQ (matrixColumn X j)

/-- Per-column population variance (`ddof = 0`) of a feature matrix. -/
def colVar (X : List (List ℚ)) (j : ℕ) : ℚ :=
  meanQ ((matrixColumn X j).map (fun v => (v - colMean X j)^2))

/-- Number of feature columns of a row-major matrix. -/
def nCols (X : List (List ℚ)) : ℕ := (X.headD []).length

/-- `StandardScaler.fit` on a training matrix: per-feature mean and
(squared) scale, a function of the matrix alone. -/
def fitScaler (X : List (List ℚ)) : ScalerParams :=
  { mean := (List.range (nCols X)).map (colMean X)
    varAdj := (List.range (nCols X)).map
      (fun j => if colVar X j = 0 then 1 else colVar X j) }

/-- `SensorTemperaturePredictor.train`: `self.scaler.fit_transform(X_train)`
fits the scaler on the training matrix only — the target is passed to the
forest fit and never reaches the scaler, and no test data is in scope. -/
def trainScaler (X_train : List (List ℚ)) (y_train : List ℚ) : ScalerParams :=
  fitScaler X_train

/-- The numeric feature vector `train_df[feature_columns]` extracts from a
processed row after `dropna` (nullable entries read with their value; the
four cyclical columns, fixed functions of the stored `hour` and `month`,
are carried by those fields; the two std columns are carried by their
squares). -/
def FeatRow.numericVec (fr : FeatRow) : List ℚ :=
  [fr.row.base.latitude, fr.row.base.longitude,
   (fr.row.hour : ℚ), (fr.row.day_of_week : ℚ), (fr.row.month : ℚ),
   (fr.row.day_of_month : ℚ), (fr.row.quarter : ℚ),
   fr.row.base.humidity] ++
  (fr.temp_lags.map (fun p => p.2.getD 0)) ++
  (fr.humidity_lags.map (fun p => p.2.getD 0)) ++
  [fr.temp_ma_6, fr.temp_ma_24, fr.humidity_ma_6, fr.humidity_ma_24,
   (fr.temp_var_24.getD 0), (fr.humidity_var_24.getD 0)]

/-- The metric dictionary returned by
`SensorTemperaturePredictor.evaluate`: `mae`, `rmse` (represented by its
square `mse`, which is rational), and `r2`, with `none` standing for the
`NaN` float. -/
structure Metrics where
  mae : ℚ
  mse : ℚ
  r2 : Option ℚ
deriving DecidableEq

/-- `sklearn.metrics.mean_absolute_error`. -/
def mean_absolute_error (y_true y_pred : List ℚ) : ℚ :=
  ((y_true.zip y_pred).map (fun p => |p.1 - p.2|)).sum / y_true.length

/-- `sklearn.metrics.mean_squared_error` (the square of the reported
RMSE). -/
def mean_squared_error (y_true y_pred : List ℚ) : ℚ :=
  ((y_true.zip y_pred).map (fun p => (p.1 - p.2)^2)).sum / y_true.length

/-- `sklearn.metrics.r2_score`: `NaN` (with a warning) for fewer than two
samples; otherwise `1` when the residual sum of squares is zero, `0` when
it is non-zero but the total sum of squares is zero, else
`1 - SS_res / SS_tot`. -/
def r2_score (y_true y_pred : List ℚ) : Option ℚ :=
  if y_pred.length < 2 then none
  else
    let ybar := y_true.sum / y_true.length
    let ssRes := ((y_true.zip y_pred).map (fun p => (p.1 - p.2)^2)).sum
    let ssTot := (y_true.map (fun v => (v - ybar)^2)).sum
    if ssRes = 0 then some 1
    else if ssTot = 0 then some 0
    else some (1 - ssRes / ssTot)

/-- `SensorTemperaturePredictor.evaluate`: computes the three metrics and
returns them (total: `warnings` are suppressed in the module and none of
the three sklearn calls raises for equal-length numeric inputs). -/
def evaluate (y_true y_pred : List ℚ) : Metrics :=
  { mae := mean_absolute_error y_true y_pred
    mse := mean_squared_error y_true y_pred
    r2 := r2_score y_true y_pred }

/-- Synthetic no-null readings for one sensor: hourly timestamps,
integer-valued temperatures and humidities. -/
def mkReadings (sensor_id : String) (n : ℕ) : List Reading :=
  (List.range n).map fun (i : ℕ) =>
    { sensor_id := sensor_id
      timestamp := (i : ℤ)
      latitude := ((10 : ℕ) : ℚ)
      longitude := ((20 : ℕ) : ℚ)
      humidity := (((50 + i) : ℕ) : ℚ)
      temperature := (((15 + i) : ℕ) : ℚ) }

/-- Alternative synthetic readings with different temperature/humidity
values (used to vary one sensor's data while fixing another's). -/
def mkReadingsAlt (sensor_id : String) (n : ℕ) : List Reading :=
  (List.range n).map fun (i : ℕ) =>
    { sensor_id := sensor_id
      timestamp := (i : ℤ)
      latitude := ((11 : ℕ) : ℚ)
      longitude := ((21 : ℕ) : ℚ)
      humidity := (((70 + i) : ℕ) : ℚ)
      temperature := (((100 + i) : ℕ) : ℚ) }

/-! ### Basic lemmas about the column operations -/

lemma shiftVal_eq (xs : List ℚ) (k i : ℕ) (hi : i < xs.length) :
    shiftVal xs k i = if k ≤ i then some (xs.getD (i - k) 0) else none := by
  unfold shiftVal shift
  rw [List.getD_eq_getElem?_getD, List.getElem?_take]
  simp only [hi, if_true]
  rw [List.getElem?_append]
  by_cases hk : k ≤ i
  · have hik : ¬ (i < (List.replicate k (none : Option ℚ)).length) := by
      simp [List.length_replicate]; omega
    rw [if_neg hik, List.length_replicate, List.getElem?_map]
    have : i - k < xs.length := by omega
    rw [List.getElem?_eq_getElem this]
    simp [hk, List.getD_eq_getElem?_getD, List.getElem?_eq_getElem this]
  · have hik : i < (List.replicate k (none : Option ℚ)).length := by
      simp [List.length_replicate]; omega
    rw [if_pos hik, List.getElem?_replicate]
    simp [List.length_replicate] at hik
    simp [hik, hk]

lemma windowSlice_length (xs : List ℚ) (w i : ℕ) (hi : i < xs.length) :
    (windowSlice xs w i).length = min (i + 1) w := by
  unfold windowSlice
  rw [List.length_drop, List.length_take]
  omega

lemma windowSlice_of_lt (xs : List ℚ) (w i : ℕ) (hiw : i < w) :
    windowSlice xs w i = xs.take (i + 1) := by
  unfold windowSlice
  have : i + 1 - w = 0 := by omega
  rw [this, List.drop_zero]

lemma windowSlice_of_ge (xs : List ℚ) (w i : ℕ) (hiw : w ≤ i) :
    windowSlice xs w i = (xs.drop (i + 1 - w)).take w := by
  unfold windowSlice
  rw [List.drop_take]
  congr 1
  omega

lemma meanQ_singleton (x : ℚ) : meanQ [x] = x := by
  simp [meanQ]

lemma rollingVarAt_zero (xs : List ℚ) (w : ℕ) :
    rollingVarAt xs w 0 = none := by
  unfold rollingVarAt
  have h : (windowSlice xs w 0).length < 2 := by
    unfold windowSlice
    rw [List.length_drop, List.length_take]
    omega
  simp [h]

lemma rollingVarAt_pos (xs : List ℚ) (i : ℕ) (hi : i < xs.length)
    (h1 : 1 ≤ i) :
    ∃ v, rollingVarAt xs 24 i = some v ∧ 0 ≤ v := by
  have hlen : (windowSlice xs 24 i).length = min (i + 1) 24 :=
    windowSlice_length xs 24 i hi
  have h2 : ¬ ((windowSlice xs 24 i).length < 2) := by omega
  unfold rollingVarAt
  rw [if_neg h2]
  refine ⟨_, rfl, ?_⟩
  apply div_nonneg
  · apply List.sum_nonneg
    intro x hx
    simp only [List.mem_map] at hx
    obtain ⟨y, _, rfl⟩ := hx
    exact sq_nonneg _
  · have h3 : (2 : ℚ) ≤ ((windowSlice xs 24 i).length : ℚ) := by
      exact_mod_cast by omega
    linarith

lemma lookup_map_self {β : Type} (l : List ℕ) (f : ℕ → β) (k : ℕ)
    (hk : k ∈ l) :
    List.lookup k (l.map fun a => (a, f a)) = some (f k) := by
  induction l with
  | nil => cases hk
  | cons a l ih =>
    rcases List.mem_cons.mp hk with h | h
    · subst h
      simp [List.lookup]
    · by_cases hka : k = a
      · subst hka; simp [List.lookup]
      · simp only [List.map_cons, List.lookup]
        have : (k == a) = false := by simp [hka]
        rw [this]
        exact ih h

lemma create_lag_features_getD (df : List TempRow) (sid : String)
    (lags : List ℕ) {i : ℕ} (hi : i < (sensorSeries df sid).length) :
    (create_lag_features df sid lags).getD i default =
      { row := (sensorSeries df sid).getD i default
        temp_lags := lags.map fun k =>
          (k, shiftVal ((sensorSeries df sid).map (fun r => r.base.temperature)) k i)
        humidity_lags := lags.map fun k =>
          (k, shiftVal ((sensorSeries df sid).map (fun r => r.base.humidity)) k i)
        temp_ma_6 := rollingMeanAt ((sensorSeries df sid).map (fun r => r.base.temperature)) 6 i
        temp_ma_24 := rollingMeanAt ((sensorSeries df sid).map (fun r => r.base.temperature)) 24 i
        humidity_ma_6 := rollingMeanAt ((sensorSeries df sid).map (fun r => r.base.humidity)) 6 i
        humidity_ma_24 := rollingMeanAt ((sensorSeries df sid).map (fun r => r.base.humidity)) 24 i
        temp_var_24 := rollingVarAt ((sensorSeries df sid).map (fun r => r.base.temperature)) 24 i
        humidity_var_24 := rollingVarAt ((sensorSeries df sid).map (fun r => r.base.humidity)) 24 i } := by
  unfold create_lag_features
  rw [List.getD_eq_getElem?_getD, List.getElem?_map, List.getElem?_range hi]
  rfl

lemma create_lag_features_length (df : List TempRow) (sid : String)
    (lags : List ℕ) :
    (create_lag_features df sid lags).length = (sensorSeries df sid).length := by
  unfold create_lag_features
  simp

lemma series_map_getD (s : List TempRow) (f : TempRow → ℚ) (i : ℕ)
    (hi : i < s.length) :
    (s.map f).getD i 0 = f (s.getD i default) := by
  rw [List.getD_eq_getElem?_getD, List.getD_eq_getElem?_getD,
    List.getElem?_map, List.getElem?_eq_getElem hi]
  rfl

lemma meanQ_take_one (s : List TempRow) (f : TempRow → ℚ)
    (h : 0 < s.length) :
    meanQ ((s.map f).take 1) = f (s.getD 0 default) := by
  obtain ⟨x, xs, rfl⟩ := List.exists_cons_of_ne_nil (List.ne_nil_of_length_pos h)
  simp [meanQ]

/-! ### C2: lag-feature semantics -/

/-- C2: for every sensor and every lag `k` in the default set
`{1,2,3,6,12,24}`, the `temp_lag_k` entry at position `i` of that sensor's
timestamp-sorted series equals the raw temperature at position `i - k` of
the same sorted series when `k ≤ i`, and is null for `i < k`; likewise
`humidity_lag_k` with the raw humidity. -/
theorem claim_C2_lag_semantics (df : List TempRow) (sensor_id : String)
    (k i : ℕ) (hk : k ∈ default_lags)
    (hi : i < (sensorSeries df sensor_id).length) :
    ((create_lag_features df sensor_id default_lags).getD i default).temp_lags.lookup k =
      some (if k ≤ i then
          some (((sensorSeries df sensor_id).map
            (fun r => r.base.temperature)).getD (i - k) 0)
        else none) ∧
    ((create_lag_features df sensor_id default_lags).getD i default).humidity_lags.lookup k =
      some (if k ≤ i then
          some (((sensorSeries df sensor_id).map
            (fun r => r.base.humidity)).getD (i - k) 0)
        else none) := by
  rw [create_lag_features_getD df sensor_id default_lags hi]
  have hT : i < ((sensorSeries df sensor_id).map
      (fun r => r.base.temperature)).length := by
    rw [List.length_map]; exact hi
  have hH : i < ((sensorSeries df sensor_id).map
      (fun r => r.base.humidity)).length := by
    rw [List.length_map]; exact hi
  constructor
  · rw [lookup_map_self default_lags _ k hk, shiftVal_eq _ _ _ hT]
  · rw [lookup_map_self default_lags _ k hk, shiftVal_eq _ _ _ hH]

/-- Witness for C2 at a concrete input: a 3-reading sensor, lag 1,
position 1: the lag entry is the raw temperature at position 0. -/
theorem claim_C2_witness :
    ((1 : ℕ) ∈ default_lags ∧
      1 < (sensorSeries (create_temporal_features (mkReadings "A" 3)) "A").length) ∧
    ((create_lag_features (create_temporal_features (mkReadings "A" 3)) "A"
        default_lags).getD 1 default).temp_lags.lookup 1 = some (some 15) :=
  ⟨⟨by decide, by decide⟩,
    (claim_C2_lag_semantics (create_temporal_features (mkReadings "A" 3)) "A"
      1 1 (by decide) (by decide)).1.trans (by decide)⟩

/-! ### C4: rolling-mean warm-up policy -/

/-- C4: for every sensor series and both windows `w ∈ {6, 24}`, the rolling
mean at sorted position `i` equals the mean of positions `0..i` when
`i < w` (at position 0, the row's own value), and the mean of the trailing
`w` positions `i-w+1..i` when `w ≤ i` — for the temperature and the
humidity column alike. -/
theorem claim_C4_rolling_mean_warmup (df : List TempRow) (sensor_id : String)
    (i : ℕ) (hi : i < (sensorSeries df sensor_id).length) :
    ((i < 6 →
        ((create_lag_features df sensor_id default_lags).getD i default).temp_ma_6 =
          meanQ (((sensorSeries df sensor_id).map
            (fun r => r.base.temperature)).take (i + 1)) ∧
        ((create_lag_features df sensor_id default_lags).getD i default).humidity_ma_6 =
          meanQ (((sensorSeries df sensor_id).map
            (fun r => r.base.humidity)).take (i + 1))) ∧
      (6 ≤ i →
        ((create_lag_features df sensor_id default_lags).getD i default).temp_ma_6 =
          meanQ ((((sensorSeries df sensor_id).map
            (fun r => r.base.temperature)).drop (i + 1 - 6)).take 6) ∧
        ((create_lag_features df sensor_id default_lags).getD i default).humidity_ma_6 =
          meanQ ((((sensorSeries df sensor_id).map
            (fun r => r.base.humidity)).drop (i + 1 - 6)).take 6))) ∧
    ((i < 24 →
        ((create_lag_features df sensor_id default_lags).getD i default).temp_ma_24 =
          meanQ (((sensorSeries df sensor_id).map
            (fun r => r.base.temperature)).take (i + 1)) ∧
        ((create_lag_features df sensor_id default_lags).getD i default).humidity_ma_24 =
          meanQ (((sensorSeries df sensor_id).map
            (fun r => r.base.humidity)).take (i + 1))) ∧
      (24 ≤ i →
        ((create_lag_features df sensor_id default_lags).getD i default).temp_ma_24 =
          meanQ ((((sensorSeries df sensor_id).map
            (fun r => r.base.temperature)).drop (i + 1 - 24)).take 24) ∧
        ((create_lag_features df sensor_id default_lags).getD i default).humidity_ma_24 =
          meanQ ((((sensorSeries df sensor_id).map
            (fun r => r.base.humidity)).drop (i + 1 - 24)).take 24))) ∧
    (i = 0 →
        ((create_lag_features df sensor_id default_lags).getD i default).temp_ma_6 =
          ((sensorSeries df sensor_id).getD 0 default).base.temperature ∧
        ((create_lag_features df sensor_id default_lags).getD i default).temp_ma_24 =
          ((sensorSeries df sensor_id).getD 0 default).base.temperature ∧
        ((create_lag_features df sensor_id default_lags).getD i default).humidity_ma_6 =
          ((sensorSeries df sensor_id).getD 0 default).base.humidity ∧
        ((create_lag_features df sensor_id default_lags).getD i default).humidity_ma_24 =
          ((sensorSeries df sensor_id).getD 0 default).base.humidity) := by
  rw [create_lag_features_getD df sensor_id default_lags hi]
  refine ⟨⟨fun h6 => ?_, fun h6 => ?_⟩, ⟨fun h24 => ?_, fun h24 => ?_⟩,
    fun h0 => ?_⟩
  · constructor <;>
      · show rollingMeanAt _ 6 i = _
        unfold rollingMeanAt
        rw [windowSlice_of_lt _ _ _ h6]
  · constructor <;>
      · show rollingMeanAt _ 6 i = _
        unfold rollingMeanAt
        rw [windowSlice_of_ge _ _ _ h6]
  · constructor <;>
      · show rollingMeanAt _ 24 i = _
        unfold rollingMeanAt
        rw [windowSlice_of_lt _ _ _ h24]
  · constructor <;>
      · show rollingMeanAt _ 24 i = _
        unfold rollingMeanAt
        rw [windowSlice_of_ge _ _ _ h24]
  · subst h0
    have h0' : 0 < (sensorSeries df sensor_id).length := hi
    refine ⟨?_, ?_, ?_, ?_⟩ <;>
      · show rollingMeanAt _ _ 0 = _
        unfold rollingMeanAt
        rw [windowSlice_of_lt _ _ _ (by omega)]
        exact meanQ_take_one _ _ h0'

/-- Witness for C4 at a concrete input: a 3-reading sensor at position 0,
whose 6-period rolling mean is its own temperature. -/
theorem claim_C4_witness :
    (0 < (sensorSeries (create_temporal_features (mkReadings "A" 3)) "A").length) ∧
    ((create_lag_features (create_temporal_features (mkReadings "A" 3)) "A"
        default_lags).getD 0 default).temp_ma_6 = 15 :=
  ⟨by decide,
    (((claim_C4_rolling_mean_warmup (create_temporal_features (mkReadings "A" 3))
      "A" 0 (by decide)).2.2 rfl).1).trans (by decide)⟩

/-! ### C5: rolling-std warm-up -/

/-- C5: for every sensor series, the 24-period rolling standard-deviation
features (represented by their squares, the sample variances) are null at
the first sorted position, and defined with a non-negative value at every
later position. -/
theorem claim_C5_rolling_std_warmup (df : List TempRow) (sensor_id : String)
    (i : ℕ) (hi : i < (sensorSeries df sensor_id).length) :
    (i = 0 →
      ((create_lag_features df sensor_id default_lags).getD i default).temp_var_24 = none ∧
      ((create_lag_features df sensor_id default_lags).getD i default).humidity_var_24 = none) ∧
    (1 ≤ i →
      (∃ v, ((create_lag_features df sensor_id default_lags).getD i default).temp_var_24 =
          some v ∧ 0 ≤ v) ∧
      (∃ v, ((create_lag_features df sensor_id default_lags).getD i default).humidity_var_24 =
          some v ∧ 0 ≤ v)) := by
  rw [create_lag_features_getD df sensor_id default_lags hi]
  have hT : i < ((sensorSeries df sensor_id).map
      (fun r => r.base.temperature)).length := by
    rw [List.length_map]; exact hi
  have hH : i < ((sensorSeries df sensor_id).map
      (fun r => r.base.humidity)).length := by
    rw [List.length_map]; exact hi
  constructor
  · rintro rfl
    exact ⟨rollingVarAt_zero _ _, rollingVarAt_zero _ _⟩
  · intro h1
    exact ⟨rollingVarAt_pos _ i hT h1, rollingVarAt_pos _ i hH h1⟩

/-- Witness for C5 at a concrete input: a 3-reading sensor, position 1,
where both variance entries are defined and non-negative (position 0 is
null). -/
theorem claim_C5_witness :
    (1 < (sensorSeries (create_temporal_features (mkReadings "A" 3)) "A").length) ∧
    (1 ≤ 1 →
      (∃ v, ((create_lag_features (create_temporal_features (mkReadings "A" 3)) "A"
          default_lags).getD 1 default).temp_var_24 = some v ∧ 0 ≤ v) ∧
      (∃ v, ((create_lag_features (create_temporal_features (mkReadings "A" 3)) "A"
          default_lags).getD 1 default).humidity_var_24 = some v ∧ 0 ≤ v)) :=
  ⟨by decide,
    (claim_C5_rolling_std_warmup (create_temporal_features (mkReadings "A" 3))
      "A" 1 (by decide)).2⟩

/-! ### C1: cross-sensor isolation -/

/-- C1: the features produced for sensor A depend only on sensor A's rows:
two inputs agreeing on sensor A's rows give identical `create_lag_features`
outputs (and identical per-sensor pipeline outputs, temporal features
included); in particular, replacing the values of every other sensor's
rows in place leaves sensor A's features unchanged. -/
theorem claim_C1_cross_sensor_isolation :
    (∀ (df1 df2 : List TempRow) (sensor_id : String) (lags : List ℕ),
        df1.filter (fun r => r.base.sensor_id == sensor_id) =
          df2.filter (fun r => r.base.sensor_id == sensor_id) →
        create_lag_features df1 sensor_id lags =
          create_lag_features df2 sensor_id lags) ∧
    (∀ (train1 train2 : List Reading) (sensor_id : String),
        train1.filter (fun r => r.sensor_id == sensor_id) =
          train2.filter (fun r => r.sensor_id == sensor_id) →
        process_sensor train1 sensor_id = process_sensor train2 sensor_id) ∧
    (∀ (df : List TempRow) (sensor_id : String) (lags : List ℕ)
        (f : TempRow → TempRow),
        (∀ r, (f r).base.sensor_id = r.base.sensor_id) →
        (∀ r, r.base.sensor_id = sensor_id → f r = r) →
        create_lag_features (df.map f) sensor_id lags =
          create_lag_features df sensor_id lags) := by
  refine ⟨?_, ?_, ?_⟩
  · intro df1 df2 sid lags h
    unfold create_lag_features sensorSeries
    rw [h]
  · intro t1 t2 sid h
    unfold process_sensor
    rw [h]
  · intro df sid lags f hf hid
    have hfil : (df.map f).filter (fun r => r.base.sensor_id == sid) =
        df.filter (fun r => r.base.sensor_id == sid) := by
      rw [List.filter_map]
      have hcomp : ((fun r : TempRow => r.base.sensor_id == sid) ∘ f) =
          (fun r : TempRow => r.base.sensor_id == sid) := by
        funext r
        simp only [Function.comp]
        rw [hf r]
      rw [hcomp]
      have hfix : ∀ r ∈ df.filter (fun r => r.base.sensor_id == sid),
          f r = r := by
        intro r hr
        have hm := List.of_mem_filter hr
        exact hid r (by simpa using hm)
      rw [List.map_congr_left hfix]
      simp
    unfold create_lag_features sensorSeries
    rw [hfil]

/-- Witness for C1: two concrete tables agreeing on sensor A but with
completely different sensor-B values produce the same features for A. -/
theorem claim_C1_witness :
    ((create_temporal_features (mkReadings "A" 2 ++ mkReadings "B" 2)).filter
        (fun r => r.base.sensor_id == "A") =
      (create_temporal_features (mkReadings "A" 2 ++ mkReadingsAlt "B" 2)).filter
        (fun r => r.base.sensor_id == "A")) ∧
    create_lag_features
        (create_temporal_features (mkReadings "A" 2 ++ mkReadings "B" 2))
        "A" default_lags =
      create_lag_features
        (create_temporal_features (mkReadings "A" 2 ++ mkReadingsAlt "B" 2))
        "A" default_lags :=
  ⟨by decide,
    claim_C1_cross_sensor_isolation.1
      (create_temporal_features (mkReadings "A" 2 ++ mkReadings "B" 2))
      (create_temporal_features (mkReadings "A" 2 ++ mkReadingsAlt "B" 2))
      "A" default_lags (by decide)⟩

/-! ### Characterization of `prepare_features` -/

lemma prepare_features_snd (train_df test_df : List Reading) :
    (prepare_features train_df test_df).2 =
      if ((trainSensors train_df).map (process_sensor train_df)).isEmpty then
        .error "No objects to concatenate"
      else if ((testSensorsOf test_df (trainSensors train_df)).map
          (process_sensor test_df)).isEmpty then
        .error "No objects to concatenate"
      else
        .ok ⟨dropna ((trainSensors train_df).map (process_sensor train_df)).flatten,
             dropna ((testSensorsOf test_df (trainSensors train_df)).map
               (process_sensor test_df)).flatten⟩ := by
  unfold prepare_features
  dsimp only
  split_ifs <;> rfl

lemma prepTrainRows_of_ok (train_df test_df : List Reading)
    (h : prepOk train_df test_df = true) :
    prepTrainRows train_df test_df =
      dropna (((trainSensors train_df).map (process_sensor train_df)).flatten) := by
  unfold prepOk at h
  unfold prepTrainRows
  rw [prepare_features_snd] at h ⊢
  split_ifs at h ⊢ <;> simp_all

lemma prepTestRows_of_ok (train_df test_df : List Reading)
    (h : prepOk train_df test_df = true) :
    prepTestRows train_df test_df =
      dropna (((testSensorsOf test_df (trainSensors train_df)).map
        (process_sensor test_df)).flatten) := by
  unfold prepOk at h
  unfold prepTestRows
  rw [prepare_features_snd] at h ⊢
  split_ifs at h ⊢ <;> simp_all

lemma prepOk_iff (train_df test_df : List Reading) :
    prepOk train_df test_df = true ↔
      trainSensors train_df ≠ [] ∧
      testSensorsOf test_df (trainSensors train_df) ≠ [] := by
  unfold prepOk
  rw [prepare_features_snd]
  split_ifs with h1 h2
  · simp only [List.isEmpty_iff, List.map_eq_nil_iff] at h1
    simp [h1]
  · simp only [List.isEmpty_iff, List.map_eq_nil_iff] at h2
    simp [h2]
  · simp only [List.isEmpty_iff, List.map_eq_nil_iff] at h1 h2
    simp [h1, h2]

/-! ### C3: no test-statistic leakage into scaling -/

/-- C3: the scaler parameters fitted by `train` are a function of the
training matrix alone — `train` never sees test data (its only scaler call
is `fit_transform(X_train)`), and the processed training frame produced by
`prepare_features` is independent of the test table, so two runs with the
same train table and different test tables fit identical scalers. -/
theorem claim_C3_no_test_leakage :
    (∀ (X_train : List (List ℚ)) (y1 y2 : List ℚ),
        trainScaler X_train y1 = trainScaler X_train y2) ∧
    (∀ (train_df test1 test2 : List Reading),
        prepOk train_df test1 = true → prepOk train_df test2 = true →
        prepTrainRows train_df test1 = prepTrainRows train_df test2 ∧
        fitScaler ((prepTrainRows train_df test1).map FeatRow.numericVec) =
          fitScaler ((prepTrainRows train_df test2).map FeatRow.numericVec)) := by
  refine ⟨fun X y1 y2 => rfl, ?_⟩
  intro train_df test1 test2 h1 h2
  have e1 := prepTrainRows_of_ok train_df test1 h1
  have e2 := prepTrainRows_of_ok train_df test2 h2
  rw [e1, e2]
  exact ⟨rfl, rfl⟩

/-- Witness for C3: one concrete train table against two different test
tables; both runs return normally and the conclusion follows from the
theorem. -/
theorem claim_C3_witness :
    (prepOk (mkReadings "A" 1) (mkReadings "A" 1) = true ∧
      prepOk (mkReadings "A" 1) (mkReadingsAlt "A" 2) = true) ∧
    (prepTrainRows (mkReadings "A" 1) (mkReadings "A" 1) =
        prepTrainRows (mkReadings "A" 1) (mkReadingsAlt "A" 2) ∧
      fitScaler ((prepTrainRows (mkReadings "A" 1) (mkReadings "A" 1)).map
          FeatRow.numericVec) =
        fitScaler ((prepTrainRows (mkReadings "A" 1) (mkReadingsAlt "A" 2)).map
          FeatRow.numericVec)) :=
  ⟨⟨by decide, by decide⟩,
    claim_C3_no_test_leakage.2 (mkReadings "A" 1) (mkReadings "A" 1)
      (mkReadingsAlt "A" 2) (by decide) (by decide)⟩

/-! ### The null pattern of a processed frame -/

lemma rollingVarAt_24_none_iff (xs : List ℚ) (i : ℕ) (hi : i < xs.length) :
    rollingVarAt xs 24 i = none ↔ i < 1 := by
  unfold rollingVarAt
  split_ifs with h
  · rw [windowSlice_length xs 24 i hi] at h
    constructor
    · intro _; omega
    · intro _; rfl
  · rw [windowSlice_length xs 24 i hi] at h
    constructor
    · intro hc; simp at hc
    · intro h1; omega

lemma lag_any_none_iff (xs : List ℚ) (i : ℕ) (hi : i < xs.length) :
    ((default_lags.map fun k => (k, shiftVal xs k i)).any
      (fun p => p.2.isNone)) = decide (i < 24) := by
  have hs : ∀ k, shiftVal xs k i =
      if k ≤ i then some (xs.getD (i - k) 0) else none :=
    fun k => shiftVal_eq xs k i hi
  simp only [default_lags, List.map_cons, List.map_nil, List.any_cons,
    List.any_nil, hs]
  by_cases h : i < 24
  · have h24 : ¬ (24 : ℕ) ≤ i := by omega
    simp [h, h24]
  · have h1 : (1 : ℕ) ≤ i := by omega
    have h2 : (2 : ℕ) ≤ i := by omega
    have h3 : (3 : ℕ) ≤ i := by omega
    have h6 : (6 : ℕ) ≤ i := by omega
    have h12 : (12 : ℕ) ≤ i := by omega
    have h24 : (24 : ℕ) ≤ i := by omega
    simp [h, h1, h2, h3, h6, h12, h24]

lemma rollingVarAt_24_isNone (xs : List ℚ) (i : ℕ) (hi : i < xs.length) :
    (rollingVarAt xs 24 i).isNone = decide (i < 1) := by
  by_cases h : i < 1
  · have h0 : i = 0 := by omega
    subst h0
    rw [rollingVarAt_zero]
    simp
  · obtain ⟨v, hv, _⟩ := rollingVarAt_pos xs i hi (by omega)
    rw [hv]
    simp [h]

lemma rowHasNull_create_lag (df : List TempRow) (sid : String) {i : ℕ}
    (hi : i < (sensorSeries df sid).length) :
    rowHasNull ((create_lag_features df sid default_lags).getD i default) =
      decide (i < 24) := by
  rw [create_lag_features_getD df sid default_lags hi]
  have hT : i < ((sensorSeries df sid).map
      (fun r => r.base.temperature)).length := by
    rw [List.length_map]; exact hi
  have hH : i < ((sensorSeries df sid).map
      (fun r => r.base.humidity)).length := by
    rw [List.length_map]; exact hi
  unfold rowHasNull
  dsimp only
  rw [lag_any_none_iff _ i hT, lag_any_none_iff _ i hH,
    rollingVarAt_24_isNone _ i hT, rollingVarAt_24_isNone _ i hH]
  by_cases h : i < 24
  · simp [h]
  · have h1 : ¬ i < 1 := by omega
    simp [h, h1]

lemma range_filter_ge (n k : ℕ) :
    (List.range n).filter (fun i => decide (k ≤ i)) = (List.range n).drop k := by
  induction n with
  | zero => simp
  | succ n ih =>
    rw [List.range_succ, List.filter_append, ih]
    by_cases h : k ≤ n
    · rw [List.drop_append_of_le_length (by simp; omega)]
      simp [h]
    · have h1 : (List.range n).drop k = [] :=
        List.drop_eq_nil_of_le (by simp; omega)
      have h2 : (List.range n ++ [n]).drop k = [] :=
        List.drop_eq_nil_of_le (by simp; omega)
      simp [h1, h2, h]

lemma filter_map_range_eq_drop {α : Type} (n k : ℕ) (g : ℕ → α)
    (p : α → Bool) (h : ∀ i < n, p (g i) = decide (k ≤ i)) :
    ((List.range n).map g).filter p = ((List.range n).map g).drop k := by
  rw [List.filter_map, ← List.map_drop]
  congr 1
  have hcong : ∀ i ∈ List.range n, (p ∘ g) i = decide (k ≤ i) := by
    intro i hi
    exact h i (List.mem_range.mp hi)
  rw [List.filter_congr hcong, range_filter_ge]

/-- The null-dropping pass on one processed sensor frame removes exactly
the first `max(lag) = 24` rows of that sensor's sorted series. -/
lemma dropna_create_lag (df : List TempRow) (sid : String) :
    dropna (create_lag_features df sid default_lags) =
      (create_lag_features df sid default_lags).drop 24 := by
  unfold dropna
  unfold create_lag_features
  dsimp only
  apply filter_map_range_eq_drop
  intro i hi
  have h := rowHasNull_create_lag df sid hi
  rw [create_lag_features_getD df sid default_lags hi] at h
  rw [h]
  by_cases h24 : i < 24
  · simp [h24, show ¬ 24 ≤ i by omega]
  · simp [h24, show 24 ≤ i by omega]

/-! ### First-occurrence deduplication lemmas -/

lemma mem_uniqueFirstAux {α : Type} [DecidableEq α] (seen l : List α)
    (x : α) :
    x ∈ uniqueFirstAux seen l ↔ x ∈ l ∧ x ∉ seen := by
  induction l generalizing seen with
  | nil => simp [uniqueFirstAux]
  | cons a l ih =>
    simp only [uniqueFirstAux]
    split_ifs with h
    · rw [ih]
      simp only [List.mem_cons]
      constructor
      · rintro ⟨hx, hns⟩
        exact ⟨Or.inr hx, hns⟩
      · rintro ⟨rfl | hx, hns⟩
        · exact absurd h hns
        · exact ⟨hx, hns⟩
    · rw [List.mem_cons, ih]
      constructor
      · rintro (rfl | ⟨hx, hns⟩)
        · exact ⟨List.mem_cons_self _ _, h⟩
        · exact ⟨List.mem_cons_of_mem _ hx,
            fun hxs => hns (List.mem_cons_of_mem _ hxs)⟩
      · rintro ⟨hxal, hns⟩
        rcases List.mem_cons.mp hxal with rfl | hx
        · exact Or.inl rfl
        · by_cases hxa : x = a
          · exact Or.inl hxa
          · refine Or.inr ⟨hx, fun hm => ?_⟩
            rcases List.mem_cons.mp hm with h1 | h1
            · exact hxa h1
            · exact hns h1

lemma nodup_uniqueFirstAux {α : Type} [DecidableEq α] (seen l : List α) :
    (uniqueFirstAux seen l).Nodup := by
  induction l generalizing seen with
  | nil => simp [uniqueFirstAux]
  | cons a l ih =>
    simp only [uniqueFirstAux]
    split_ifs with h
    · exact ih seen
    · refine List.nodup_cons.mpr ⟨?_, ih (a :: seen)⟩
      intro hmem
      rw [mem_uniqueFirstAux] at hmem
      exact hmem.2 (List.mem_cons_self a seen)

lemma mem_uniqueFirst {α : Type} [DecidableEq α] (l : List α) (x : α) :
    x ∈ uniqueFirst l ↔ x ∈ l := by
  unfold uniqueFirst
  rw [mem_uniqueFirstAux]
  simp

lemma nodup_trainSensors (train_df : List Reading) :
    (trainSensors train_df).Nodup := nodup_uniqueFirstAux _ _

lemma mem_trainSensors (train_df : List Reading) (s : String) :
    s ∈ trainSensors train_df ↔ s ∈ train_df.map (·.sensor_id) :=
  mem_uniqueFirst _ _

/-! ### Per-sensor frames: membership, length, counting -/

lemma getD_mem {α : Type} [Inhabited α] (l : List α) (i : ℕ)
    (h : i < l.length) : l.getD i default ∈ l := by
  rw [List.getD_eq_getElem?_getD, List.getElem?_eq_getElem h]
  simp only [Option.getD_some]
  exact List.getElem_mem h

lemma mem_sensorSeries (df : List TempRow) (sid : String) (r : TempRow)
    (h : r ∈ sensorSeries df sid) : r.base.sensor_id = sid := by
  unfold sensorSeries at h
  have hm := (List.perm_insertionSort
    (fun a b : TempRow => a.base.timestamp ≤ b.base.timestamp)
    (df.filter (fun r => r.base.sensor_id == sid))).mem_iff.mp h
  have hf := List.of_mem_filter hm
  simpa using hf

lemma sensorSeries_length (df : List TempRow) (sid : String) :
    (sensorSeries df sid).length =
      (df.filter (fun r => r.base.sensor_id == sid)).length :=
  (List.perm_insertionSort _ _).length_eq

lemma mem_create_lag_sensor_id (df : List TempRow) (sid : String)
    (lags : List ℕ) (fr : FeatRow)
    (h : fr ∈ create_lag_features df sid lags) : fr.sensor_id = sid := by
  unfold create_lag_features at h
  dsimp only at h
  rw [List.mem_map] at h
  obtain ⟨i, hi, rfl⟩ := h
  rw [List.mem_range] at hi
  exact mem_sensorSeries df sid _ (getD_mem _ i hi)

lemma mem_process_sensor_sensor_id (df : List Reading) (sid : String)
    (fr : FeatRow) (h : fr ∈ process_sensor df sid) : fr.sensor_id = sid := by
  unfold process_sensor at h
  exact mem_create_lag_sensor_id _ _ _ _ h

lemma filter_map_length {α β : Type} (f : α → β) (p : β → Bool)
    (q : α → Bool) (l : List α) (h : ∀ a, p (f a) = q a) :
    ((l.map f).filter p).length = (l.filter q).length := by
  rw [List.filter_map, List.length_map]
  congr 1
  apply List.filter_congr
  intro a _
  exact h a

lemma process_sensor_length (df : List Reading) (sid : String) :
    (process_sensor df sid).length =
      (df.filter (fun r => r.sensor_id == sid)).length := by
  unfold process_sensor
  rw [create_lag_features_length, sensorSeries_length]
  unfold create_temporal_features
  rw [filter_map_length _ _ (fun r => r.sensor_id == sid) _ (fun a => rfl)]
  rw [List.filter_filter]
  congr 1
  apply List.filter_congr
  intro a _
  simp

lemma dropna_process_sensor (df : List Reading) (sid : String) :
    dropna (process_sensor df sid) = (process_sensor df sid).drop 24 := by
  unfold process_sensor
  exact dropna_create_lag _ _

lemma sum_map_eq_single {α : Type} [DecidableEq α] (L : List α)
    (hN : L.Nodup) (f : α → ℕ) (s : α)
    (h : ∀ t ∈ L, t ≠ s → f t = 0) :
    (L.map f).sum = if s ∈ L then f s else 0 := by
  induction L with
  | nil => simp
  | cons a L ih =>
    rw [List.map_cons, List.sum_cons]
    have hna := (List.nodup_cons.mp hN).1
    have hN' := (List.nodup_cons.mp hN).2
    rw [ih hN' (fun t ht hts => h t (List.mem_cons_of_mem a ht) hts)]
    by_cases has : a = s
    · subst has
      simp [hna]
    · rw [h a (List.mem_cons_self a L) has]
      have hsa : ¬ s = a := fun hh => has hh.symm
      by_cases hsL : s ∈ L
      · simp [hsL, List.mem_cons]
      · simp [hsL, hsa, List.mem_cons]

lemma countP_dropna_flatten (L : List (List FeatRow)) (p : FeatRow → Bool) :
    (dropna L.flatten).countP p =
      (L.map (fun l => (dropna l).countP p)).sum := by
  unfold dropna
  rw [List.countP_filter, List.countP_flatten]
  congr 1
  apply List.map_congr_left
  intro l _
  rw [List.countP_filter]

lemma countP_dropna_process (df : List Reading) (s t : String) :
    (dropna (process_sensor df t)).countP (fun fr => fr.sensor_id == s) =
      if t = s then (df.filter (fun r => r.sensor_id == s)).length - 24
      else 0 := by
  by_cases hts : t = s
  · subst hts
    rw [if_pos rfl]
    have hall : ∀ fr ∈ dropna (process_sensor df t),
        (fr.sensor_id == t) = true := by
      intro fr hfr
      have hm : fr ∈ process_sensor df t := List.mem_of_mem_filter hfr
      simp [mem_process_sensor_sensor_id df t fr hm]
    rw [List.countP_eq_length.mpr hall, dropna_process_sensor,
      List.length_drop, process_sensor_length]
  · rw [if_neg hts]
    rw [List.countP_eq_zero]
    intro fr hfr
    have hm : fr ∈ process_sensor df t := List.mem_of_mem_filter hfr
    have := mem_process_sensor_sensor_id df t fr hm
    simp [this, hts]

/-! ### C6: retained-row-count invariant -/

/-- Counterexample to C6 as stated: a no-null sensor `"C"` contributes 30
rows to the test split but, being absent from the train table, is never
processed — it contributes `0` rows to the assembled test frame, not
`30 - 24 = 6`. -/
theorem claim_C6_row_count_cex :
    ((mkReadings "A" 1 ++ mkReadings "C" 30).filter
        (fun r => r.sensor_id == "C")).length = 30 ∧
    prepOk (mkReadings "A" 2) (mkReadings "A" 1 ++ mkReadings "C" 30) = true ∧
    (prepTestRows (mkReadings "A" 2)
        (mkReadings "A" 1 ++ mkReadings "C" 30)).countP
      (fun fr => fr.sensor_id == "C") = 0 ∧
    ((mkReadings "A" 1 ++ mkReadings "C" 30).filter
        (fun r => r.sensor_id == "C")).length - 24 ≠ 0 := by
  refine ⟨by decide, by decide, by decide, by decide⟩

/-- C6 (amended): restricted to the sensors actually processed for a split
— every sensor for the train split, and for the test split the sensors
also present in the train table — a sensor contributing `n` no-null raw
rows to a split contributes exactly `n - 24` rows (truncated at zero) to
that split's assembled frame, and the per-sensor null-drop removes exactly
the first `max(lag) = 24` rows of its sorted series.  Test rows of sensors
absent from the train table contribute nothing. -/
theorem claim_C6_row_count_amended (train_df test_df : List Reading)
    (s : String) :
    (dropna (process_sensor train_df s) = (process_sensor train_df s).drop 24 ∧
      dropna (process_sensor test_df s) = (process_sensor test_df s).drop 24) ∧
    (prepOk train_df test_df = true →
      (prepTrainRows train_df test_df).countP (fun fr => fr.sensor_id == s) =
        (train_df.filter (fun r => r.sensor_id == s)).length - 24 ∧
      (s ∈ trainSensors train_df →
        (prepTestRows train_df test_df).countP (fun fr => fr.sensor_id == s) =
          (test_df.filter (fun r => r.sensor_id == s)).length - 24)) := by
  refine ⟨⟨dropna_process_sensor _ _, dropna_process_sensor _ _⟩, ?_⟩
  intro hok
  constructor
  · rw [prepTrainRows_of_ok _ _ hok, countP_dropna_flatten, List.map_map]
    have hpt : ∀ t ∈ trainSensors train_df,
        ((fun l => (dropna l).countP (fun fr => fr.sensor_id == s)) ∘
          process_sensor train_df) t =
        (fun t => if t = s then
            (train_df.filter (fun r => r.sensor_id == s)).length - 24
          else 0) t :=
      fun t _ => countP_dropna_process train_df s t
    rw [List.map_congr_left hpt,
      sum_map_eq_single _ (nodup_trainSensors train_df) _ s
        (fun t _ hts => by simp [hts])]
    by_cases hs : s ∈ trainSensors train_df
    · rw [if_pos hs, if_pos rfl]
    · rw [if_neg hs]
      have hfil : train_df.filter (fun r => r.sensor_id == s) = [] := by
        rw [List.filter_eq_nil_iff]
        intro r hr hpr
        apply hs
        rw [mem_trainSensors]
        rw [List.mem_map]
        exact ⟨r, hr, by simpa using hpr⟩
      rw [hfil]
      rfl
  · intro hstr
    rw [prepTestRows_of_ok _ _ hok, countP_dropna_flatten, List.map_map]
    have hpt : ∀ t ∈ testSensorsOf test_df (trainSensors train_df),
        ((fun l => (dropna l).countP (fun fr => fr.sensor_id == s)) ∘
          process_sensor test_df) t =
        (fun t => if t = s then
            (test_df.filter (fun r => r.sensor_id == s)).length - 24
          else 0) t :=
      fun t _ => countP_dropna_process test_df s t
    have hnodup : (testSensorsOf test_df (trainSensors train_df)).Nodup :=
      (nodup_trainSensors train_df).filter _
    rw [List.map_congr_left hpt,
      sum_map_eq_single _ hnodup _ s (fun t _ hts => by simp [hts])]
    by_cases hs : s ∈ testSensorsOf test_df (trainSensors train_df)
    · rw [if_pos hs, if_pos rfl]
    · rw [if_neg hs]
      have hnm : s ∉ test_df.map (fun r => r.sensor_id) := by
        intro hm
        apply hs
        unfold testSensorsOf
        rw [List.mem_filter]
        exact ⟨hstr, by simpa using hm⟩
      have hfil : test_df.filter (fun r => r.sensor_id == s) = [] := by
        rw [List.filter_eq_nil_iff]
        intro r hr hpr
        apply hnm
        rw [List.mem_map]
        exact ⟨r, hr, by simpa using hpr⟩
      rw [hfil]
      rfl

/-- Witness for the amended C6 at a concrete input: train sensor `"A"`
with 2 rows (fewer than 24), retaining `2 - 24 = 0` rows in each split. -/
theorem claim_C6_witness :
    (prepOk (mkReadings "A" 2) (mkReadings "A" 1) = true ∧
      "A" ∈ trainSensors (mkReadings "A" 2)) ∧
    ((prepTrainRows (mkReadings "A" 2) (mkReadings "A" 1)).countP
        (fun fr => fr.sensor_id == "A") =
      ((mkReadings "A" 2).filter (fun r => r.sensor_id == "A")).length - 24 ∧
    ("A" ∈ trainSensors (mkReadings "A" 2) →
      (prepTestRows (mkReadings "A" 2) (mkReadings "A" 1)).countP
          (fun fr => fr.sensor_id == "A") =
        ((mkReadings "A" 1).filter (fun r => r.sensor_id == "A")).length - 24)) :=
  ⟨⟨by decide, by decide⟩,
    (claim_C6_row_count_amended (mkReadings "A" 2) (mkReadings "A" 1) "A").2
      (by decide)⟩

/-! ### C8: insufficient-history handling -/

/-- Counterexample to C8 as stated: sensor `"B"` contributes one train row
and ends with zero valid rows after the null-drop, yet its assembly is not
aborted (its frame is fully built, with its row present in the
concatenated pre-drop frame), no dedicated log event is emitted (the log
consists solely of the generic messages, `"B"` getting the same
`Processing sensor` line as any other sensor), and its rows simply vanish
in the global `dropna`. -/
theorem claim_C8_insufficient_history_cex :
    dropna (process_sensor (mkReadings "A" 2 ++ mkReadings "B" 1) "B") = [] ∧
    process_sensor (mkReadings "A" 2 ++ mkReadings "B" 1) "B" ≠ [] ∧
    (((trainSensors (mkReadings "A" 2 ++ mkReadings "B" 1)).map
        (process_sensor (mkReadings "A" 2 ++ mkReadings "B" 1))).flatten).countP
      (fun fr => fr.sensor_id == "B") = 1 ∧
    prepOk (mkReadings "A" 2 ++ mkReadings "B" 1) (mkReadings "A" 1) = true ∧
    (prepare_features (mkReadings "A" 2 ++ mkReadings "B" 1)
        (mkReadings "A" 1)).1 =
      [LogEntry.engineeringFeatures, LogEntry.processingSensor "A",
        LogEntry.processingSensor "B", LogEntry.featuresCreated 0 0] ∧
    (prepTrainRows (mkReadings "A" 2 ++ mkReadings "B" 1)
        (mkReadings "A" 1)).countP (fun fr => fr.sensor_id == "B") = 0 := by
  refine ⟨by decide, by decide, by decide, by decide, by decide, by decide⟩

/-- C8 (amended): a sensor yielding zero valid rows after the warm-up
null-drop is not specially handled: the success of the run is unaffected
(it depends only on the train table being non-empty and on at least one
train sensor occurring in the test table), the sensor's frame is still
fully assembled (one engineered row per raw row), and the run's output
simply contains no rows of that sensor while the remaining sensors' rows
are produced as usual. -/
theorem claim_C8_insufficient_history_amended
    (train_df test_df : List Reading) (s : String)
    (h : dropna (process_sensor train_df s) = []) :
    (prepOk train_df test_df = true ↔
      trainSensors train_df ≠ [] ∧
      testSensorsOf test_df (trainSensors train_df) ≠ []) ∧
    (process_sensor train_df s).length =
      (train_df.filter (fun r => r.sensor_id == s)).length ∧
    (prepOk train_df test_df = true →
      ∀ fr ∈ prepTrainRows train_df test_df, ¬ fr.sensor_id = s) := by
  refine ⟨prepOk_iff train_df test_df, process_sensor_length train_df s, ?_⟩
  intro hok fr hfr hfs
  rw [prepTrainRows_of_ok _ _ hok] at hfr
  unfold dropna at hfr h
  obtain ⟨hfl, hnn⟩ := List.mem_filter.mp hfr
  rw [List.mem_flatten] at hfl
  obtain ⟨l, hl, hfrl⟩ := hfl
  rw [List.mem_map] at hl
  obtain ⟨t, ht, rfl⟩ := hl
  have hts : t = s := by
    rw [← mem_process_sensor_sensor_id train_df t fr hfrl]
    exact hfs
  subst hts
  have hmem : fr ∈ List.filter (fun fr => !(rowHasNull fr))
      (process_sensor train_df t) :=
    List.mem_filter.mpr ⟨hfrl, hnn⟩
  rw [h] at hmem
  cases hmem

/-- Witness for the amended C8 at a concrete input: sensor `"B"` with one
train row and zero valid rows. -/
theorem claim_C8_witness :
    dropna (process_sensor (mkReadings "A" 2 ++ mkReadings "B" 1) "B") = [] ∧
    ((prepOk (mkReadings "A" 2 ++ mkReadings "B" 1) (mkReadings "A" 1) = true ↔
        trainSensors (mkReadings "A" 2 ++ mkReadings "B" 1) ≠ [] ∧
        testSensorsOf (mkReadings "A" 1)
          (trainSensors (mkReadings "A" 2 ++ mkReadings "B" 1)) ≠ []) ∧
      (process_sensor (mkReadings "A" 2 ++ mkReadings "B" 1) "B").length =
        ((mkReadings "A" 2 ++ mkReadings "B" 1).filter
          (fun r => r.sensor_id == "B")).length ∧
      (prepOk (mkReadings "A" 2 ++ mkReadings "B" 1) (mkReadings "A" 1) = true →
        ∀ fr ∈ prepTrainRows (mkReadings "A" 2 ++ mkReadings "B" 1)
          (mkReadings "A" 1), ¬ fr.sensor_id = "B")) :=
  ⟨by decide,
    claim_C8_insufficient_history_amended
      (mkReadings "A" 2 ++ mkReadings "B" 1) (mkReadings "A" 1) "B"
      (by decide)⟩

/-! ### C10: empty train/test sensor intersection -/

/-- C10: when no train sensor occurs in the test table, `prepare_features`
raises (`pd.concat` on an empty list of test frames), rather than
returning an empty test frame; and in every successful run, every row of
the returned test frame belongs to a sensor of the train table — test rows
of other sensors are silently dropped. -/
theorem claim_C10_empty_intersection :
    (∀ (train_df test_df : List Reading),
        (∀ s ∈ trainSensors train_df,
          s ∉ test_df.map (fun r => r.sensor_id)) →
        prepOk train_df test_df = false) ∧
    (∀ (train_df test_df : List Reading),
        prepOk train_df test_df = true →
        ∀ fr ∈ prepTestRows train_df test_df,
          fr.sensor_id ∈ trainSensors train_df) := by
  constructor
  · intro train_df test_df h
    cases hp : prepOk train_df test_df with
    | false => rfl
    | true =>
      rw [prepOk_iff] at hp
      obtain ⟨-, hts⟩ := hp
      obtain ⟨t, htm⟩ := List.exists_mem_of_ne_nil _ hts
      unfold testSensorsOf at htm
      have hm := List.mem_filter.mp htm
      exact absurd (by simpa using hm.2) (h t hm.1)
  · intro train_df test_df hok fr hfr
    rw [prepTestRows_of_ok _ _ hok] at hfr
    unfold dropna at hfr
    obtain ⟨hfl, -⟩ := List.mem_filter.mp hfr
    rw [List.mem_flatten] at hfl
    obtain ⟨l, hl, hfrl⟩ := hfl
    rw [List.mem_map] at hl
    obtain ⟨t, ht, rfl⟩ := hl
    rw [mem_process_sensor_sensor_id test_df t fr hfrl]
    unfold testSensorsOf at ht
    exact (List.mem_filter.mp ht).1

/-- Witness for C10 at a concrete input: train has only sensor `"A"`,
test has only sensor `"B"`, and the run raises. -/
theorem claim_C10_witness :
    (∀ s ∈ trainSensors (mkReadings "A" 1),
        s ∉ (mkReadings "B" 1).map (fun r => r.sensor_id)) ∧
    prepOk (mkReadings "A" 1) (mkReadings "B" 1) = false :=
  ⟨by decide,
    claim_C10_empty_intersection.1 (mkReadings "A" 1) (mkReadings "B" 1)
      (by decide)⟩

/-! ### C7: the canonical feature-column list -/

/-- Counterexample to C7 as stated: the canonical feature-column list has
30 entries, not 29. -/
theorem claim_C7_feature_count_cex :
    feature_columns.length = 30 ∧ feature_columns.length ≠ 29 := by decide

/-- C7 (amended): the canonical ordered feature-column list has exactly 30
entries, composed — in order — of 2 geographic, 5 calendar, 4 cyclical,
1 current-humidity, 12 lag (6 lags × 2 signals), 4 rolling-mean, and 2
rolling-std columns. -/
theorem claim_C7_feature_count_amended :
    feature_columns.length = 30 ∧
    feature_columns.take 2 = ["latitude", "longitude"] ∧
    (feature_columns.drop 2).take 5 =
      ["hour", "day_of_week", "month", "day_of_month", "quarter"] ∧
    (feature_columns.drop 7).take 4 =
      ["hour_sin", "hour_cos", "month_sin", "month_cos"] ∧
    (feature_columns.drop 11).take 1 = ["humidity"] ∧
    (feature_columns.drop 12).take 12 =
      ["temp_lag_1", "temp_lag_2", "temp_lag_3",
       "temp_lag_6", "temp_lag_12", "temp_lag_24",
       "humidity_lag_1", "humidity_lag_2", "humidity_lag_3",
       "humidity_lag_6", "humidity_lag_12", "humidity_lag_24"] ∧
    (feature_columns.drop 24).take 4 =
      ["temp_ma_6", "temp_ma_24", "humidity_ma_6", "humidity_ma_24"] ∧
    feature_columns.drop 28 = ["temp_std_24", "humidity_std_24"] := by decide

/-! ### C9: degenerate-metric handling -/

/-- Counterexample to C9 as stated: on the zero-variance target `[5, 5]`
with prediction `[5, 6]`, sklearn's `r2_score` returns `0.0`, not `NaN`
(`none`). -/
theorem claim_C9_degenerate_r2_cex :
    (∀ x ∈ [(5 : ℚ), 5], x = 5) ∧
    (evaluate [(5 : ℚ), 5] [(5 : ℚ), 6]).r2 = some 0 ∧
    (evaluate [(5 : ℚ), 5] [(5 : ℚ), 6]).r2 ≠ none := by
  have h2 : (evaluate [(5 : ℚ), 5] [(5 : ℚ), 6]).r2 = some 0 := by
    norm_num [evaluate, r2_score]
  refine ⟨by decide, h2, ?_⟩
  rw [h2]
  exact Option.some_ne_none 0

/-- C9 (amended): for every zero-variance `y_true` with at least two
samples and every `y_pred` of the same length, `evaluate` returns normally
with MAE and (squared) RMSE given by the usual formulas, and reports R² as
`1.0` when the residuals are all zero and `0.0` otherwise; `NaN` is
reported only for fewer than two samples. -/
theorem claim_C9_degenerate_r2_amended (y_true y_pred : List ℚ) (c : ℚ)
    (hlen : y_true.length = y_pred.length)
    (hc : ∀ x ∈ y_true, x = c) (hn : 2 ≤ y_true.length) :
    evaluate y_true y_pred =
      { mae := ((y_true.zip y_pred).map (fun p => |p.1 - p.2|)).sum /
          y_true.length
        mse := ((y_true.zip y_pred).map (fun p => (p.1 - p.2)^2)).sum /
          y_true.length
        r2 := some (if ((y_true.zip y_pred).map
            (fun p => (p.1 - p.2)^2)).sum = 0 then 1 else 0) } := by
  unfold evaluate mean_absolute_error mean_squared_error r2_score
  have hlt : ¬ (y_pred.length < 2) := by omega
  rw [if_neg hlt]
  dsimp only
  have hn0 : (y_true.length : ℚ) ≠ 0 := Nat.cast_ne_zero.mpr (by omega)
  have hsum : y_true.sum = (y_true.length : ℚ) * c := by
    rw [List.sum_eq_card_nsmul y_true c hc, nsmul_eq_mul]
  have hybar : y_true.sum / (y_true.length : ℚ) = c := by
    rw [hsum, mul_div_cancel_left₀ _ hn0]
  have htot : (y_true.map
      (fun v => (v - y_true.sum / (y_true.length : ℚ))^2)).sum = 0 := by
    apply List.sum_eq_zero
    intro x hx
    rw [List.mem_map] at hx
    obtain ⟨v, hv, rfl⟩ := hx
    rw [hybar, hc v hv]
    ring
  rw [htot]
  congr 1
  by_cases hres : ((y_true.zip y_pred).map (fun p => (p.1 - p.2)^2)).sum = 0
  · rw [if_pos hres, if_pos hres]
  · rw [if_neg hres, if_neg hres, if_pos rfl]

/-- Witness for the amended C9 at the concrete input `y_true = [5, 5]`,
`y_pred = [5, 6]`. -/
theorem claim_C9_witness :
    (([(5 : ℚ), 5] : List ℚ).length = ([(5 : ℚ), 6] : List ℚ).length ∧
      (∀ x ∈ [(5 : ℚ), 5], x = 5) ∧ 2 ≤ ([(5 : ℚ), 5] : List ℚ).length) ∧
    evaluate [(5 : ℚ), 5] [(5 : ℚ), 6] =
      { mae := ((([(5 : ℚ), 5]).zip ([(5 : ℚ), 6])).map
            (fun p => |p.1 - p.2|)).sum / ([(5 : ℚ), 5] : List ℚ).length
        mse := ((([(5 : ℚ), 5]).zip ([(5 : ℚ), 6])).map
            (fun p => (p.1 - p.2)^2)).sum / ([(5 : ℚ), 5] : List ℚ).length
        r2 := some (if ((([(5 : ℚ), 5]).zip ([(5 : ℚ), 6])).map
            (fun p => (p.1 - p.2)^2)).sum = 0 then 1 else 0) } :=
  ⟨⟨by decide, by decide, by decide⟩,
    claim_C9_degenerate_r2_amended [5, 5] [5, 6] 5 (by decide) (by decide)
      (by decide)⟩
